import Mathlib

/-!
Shallow embedding of `generate_release.py`, the release-generation script of
the batteryDaddyAdaptersOpenSCAD repository, together with proofs of the
specification's claims about it.

Modelling conventions:
* Python dicts (insertion-ordered) become association lists `List (String × List String)`.
* A call to the external `openscad` process is abstracted by an environment
  `Env : Invocation → ProcOutcome` giving, for each invocation the script can
  make, either the completed process (exit code and captured stderr) or the
  "executable not found" condition.
* `subprocess.run(cmd, check=True)` raises `CalledProcessError` on a nonzero
  exit status and `FileNotFoundError` when the executable is missing; Python
  exceptions are modelled with `Except PyError`.
* Wall-clock time (`datetime.now()`) becomes an explicit `Timestamp` argument.
* Printing to the console is not modelled (it carries no data the claims use).
-/

/-- Outcome of attempting to execute the external `openscad` process once. -/
inductive ProcOutcome where
  | completed (exitCode : Nat) (stderr : String)
  | execMissing
deriving DecidableEq

/-- The Python exceptions that can arise from `subprocess.run(check=True)`:
`CalledProcessError` (nonzero exit status) and `FileNotFoundError`
(executable absent from the execution path). -/
inductive PyError where
  | calledProcessError (exitCode : Nat) (stderr : String)
  | fileNotFoundError
deriving DecidableEq

/-- One invocation of the external tool: the `.scad` template file, the
output `.stl` path, and the `-D` parameter assignments in order. -/
structure Invocation where
  scadFile : String
  outputFile : String
  params : List (String × String)
deriving DecidableEq

/-- The behaviour of the external world: what happens when the script runs
`openscad` with the given template, output path and parameters. -/
def Env : Type := Invocation → ProcOutcome

/-- The command line built by `run_openscad` (source lines 29-32):
`openscad -o <output> -D k=v ... <scad_file>`. -/
def openscadCmd (inv : Invocation) : List String :=
  ["openscad", "-o", inv.outputFile]
    ++ inv.params.flatMap (fun kv => ["-D", kv.1 ++ "=" ++ kv.2])
    ++ [inv.scadFile]

/-- Embedding of `subprocess.run(cmd, capture_output=True, text=True, check=True)`:
returns the captured stderr on exit status 0, raises `CalledProcessError`
on a nonzero exit status, raises `FileNotFoundError` when the executable is
missing. -/
def subprocessRunCheck (env : Env) (inv : Invocation) : Except PyError String :=
  match env inv with
  | ProcOutcome.completed 0 stderr => Except.ok stderr
  | ProcOutcome.completed (code + 1) stderr =>
      Except.error (PyError.calledProcessError (code + 1) stderr)
  | ProcOutcome.execMissing => Except.error PyError.fileNotFoundError

/-- Embedding of `run_openscad(scad_file, output_file, params)` (source lines
27-39): runs the subprocess and catches only `CalledProcessError`, returning
`(True, None)` on success and `(False, e.stderr)` on a nonzero exit status.
Any other exception (in particular `FileNotFoundError`) propagates. -/
def run_openscad (env : Env) (scad_file output_file : String)
    (params : List (String × String)) : Except PyError (Bool × Option String) :=
  match subprocessRunCheck env ⟨scad_file, output_file, params⟩ with
  | Except.ok _ => Except.ok (true, none)
  | Except.error (PyError.calledProcessError _ stderr) => Except.ok (false, some stderr)
  | Except.error PyError.fileNotFoundError => Except.error PyError.fileNotFoundError

/-- `BUTTON_CELL_COMPAT` (source lines 14-20), in insertion order. -/
def BUTTON_CELL_COMPAT : List (String × List String) :=
  [("CR2450", ["D"]),
   ("CR2032", ["D", "C"]),
   ("CR2016", ["D", "C"]),
   ("CR1632", ["D", "C"]),
   ("CR1616", ["D", "C"])]

/-- `CYLINDER_COMPAT` (source lines 22-25), in insertion order. -/
def CYLINDER_COMPAT : List (String × List String) :=
  [("A27", ["D", "C"]),
   ("AAAA", ["D", "C"])]

/-- The parameter dict built per pair in `generate_button_cell_stls`
(source lines 51-54): labels are wrapped in literal double quotes. -/
def buttonCellParams (battery host : String) : List (String × String) :=
  [("battery_label", "\"" ++ battery ++ "\""),
   ("host_battery_type", "\"" ++ host ++ "\"")]

/-- The parameter dict built per pair in `generate_cylinder_stls`
(source lines 80-83). -/
def cylinderParams (battery host : String) : List (String × String) :=
  [("battery_type", "\"" ++ battery ++ "\""),
   ("host_battery_type", "\"" ++ host ++ "\"")]

/-- The filename `f"{battery}-{host}.stl"` (source lines 50 and 79). -/
def stlName (battery host : String) : String :=
  battery ++ "-" ++ host ++ ".stl"

/-- The output path `output_dir / f"{battery}-{host}.stl"`. -/
def stlPath (output_dir battery host : String) : String :=
  output_dir ++ "/" ++ stlName battery host

/-- The single invocation made for a (battery, host) pair, given the class's
template file and parameter builder. -/
def mkInv (scad_file output_dir : String)
    (pb : String → String → List (String × String)) (battery host : String) :
    Invocation :=
  ⟨scad_file, stlPath output_dir battery host, pb battery host⟩

/-- Result of one generation loop: the success counter, the failure counter,
and (as instrumentation) the sequence of invocations issued, in order. -/
structure LoopResult where
  succ : Nat
  fail : Nat
  calls : List Invocation
deriving DecidableEq

/-- Inner loop of `generate_button_cell_stls` (source lines 49-66): one
invocation per host of the current battery, threading the two counters. -/
def goButtonHosts (env : Env) (output_dir battery : String) :
    List String → Nat → Nat → Except PyError LoopResult
  | [], s, f => Except.ok ⟨s, f, []⟩
  | host :: rest, s, f =>
    match run_openscad env "button_cell_adapter.scad"
        (stlPath output_dir battery host) (buttonCellParams battery host) with
    | Except.error e => Except.error e
    | Except.ok (true, _) =>
      match goButtonHosts env output_dir battery rest (s + 1) f with
      | Except.error e => Except.error e
      | Except.ok r =>
          Except.ok ⟨r.succ, r.fail,
            mkInv "button_cell_adapter.scad" output_dir buttonCellParams battery host :: r.calls⟩
    | Except.ok (false, _) =>
      match goButtonHosts env output_dir battery rest s (f + 1) with
      | Except.error e => Except.error e
      | Except.ok r =>
          Except.ok ⟨r.succ, r.fail,
            mkInv "button_cell_adapter.scad" output_dir buttonCellParams battery host :: r.calls⟩

/-- Outer loop of `generate_button_cell_stls` (source line 48): iterate the
compatibility table in order. -/
def goButtonTable (env : Env) (output_dir : String) :
    List (String × List String) → Nat → Nat → Except PyError LoopResult
  | [], s, f => Except.ok ⟨s, f, []⟩
  | (battery, hosts) :: rest, s, f =>
    match goButtonHosts env output_dir battery hosts s f with
    | Except.error e => Except.error e
    | Except.ok r =>
      match goButtonTable env output_dir rest r.succ r.fail with
      | Except.error e => Except.error e
      | Except.ok r2 => Except.ok ⟨r2.succ, r2.fail, r.calls ++ r2.calls⟩

/-- Embedding of `generate_button_cell_stls(output_dir)` (source lines 41-68). -/
def generate_button_cell_stls (env : Env) (output_dir : String) :
    Except PyError LoopResult :=
  goButtonTable env output_dir BUTTON_CELL_COMPAT 0 0

/-- Inner loop of `generate_cylinder_stls` (source lines 78-95). -/
def goCylinderHosts (env : Env) (output_dir battery : String) :
    List String → Nat → Nat → Except PyError LoopResult
  | [], s, f => Except.ok ⟨s, f, []⟩
  | host :: rest, s, f =>
    match run_openscad env "cylinder_battery_adapter.scad"
        (stlPath output_dir battery host) (cylinderParams battery host) with
    | Except.error e => Except.error e
    | Except.ok (true, _) =>
      match goCylinderHosts env output_dir battery rest (s + 1) f with
      | Except.error e => Except.error e
      | Except.ok r =>
          Except.ok ⟨r.succ, r.fail,
            mkInv "cylinder_battery_adapter.scad" output_dir cylinderParams battery host :: r.calls⟩
    | Except.ok (false, _) =>
      match goCylinderHosts env output_dir battery rest s (f + 1) with
      | Except.error e => Except.error e
      | Except.ok r =>
          Except.ok ⟨r.succ, r.fail,
            mkInv "cylinder_battery_adapter.scad" output_dir cylinderParams battery host :: r.calls⟩

/-- Outer loop of `generate_cylinder_stls` (source line 77). -/
def goCylinderTable (env : Env) (output_dir : String) :
    List (String × List String) → Nat → Nat → Except PyError LoopResult
  | [], s, f => Except.ok ⟨s, f, []⟩
  | (battery, hosts) :: rest, s, f =>
    match goCylinderHosts env output_dir battery hosts s f with
    | Except.error e => Except.error e
    | Except.ok r =>
      match goCylinderTable env output_dir rest r.succ r.fail with
      | Except.error e => Except.error e
      | Except.ok r2 => Except.ok ⟨r2.succ, r2.fail, r.calls ++ r2.calls⟩

/-- Embedding of `generate_cylinder_stls(output_dir)` (source lines 70-97). -/
def generate_cylinder_stls (env : Env) (output_dir : String) :
    Except PyError LoopResult :=
  goCylinderTable env output_dir CYLINDER_COMPAT 0 0

/-- Modelled from the spec: inner loop of the single parameterized driver the
spec proposes (design note on the two near-duplicate generation loops), taking
the template file and a parameter-builder function as configuration. -/
def goGenericHosts (env : Env) (scad_file output_dir battery : String)
    (pb : String → String → List (String × String)) :
    List String → Nat → Nat → Except PyError LoopResult
  | [], s, f => Except.ok ⟨s, f, []⟩
  | host :: rest, s, f =>
    match run_openscad env scad_file
        (stlPath output_dir battery host) (pb battery host) with
    | Except.error e => Except.error e
    | Except.ok (true, _) =>
      match goGenericHosts env scad_file output_dir battery pb rest (s + 1) f with
      | Except.error e => Except.error e
      | Except.ok r =>
          Except.ok ⟨r.succ, r.fail, mkInv scad_file output_dir pb battery host :: r.calls⟩
    | Except.ok (false, _) =>
      match goGenericHosts env scad_file output_dir battery pb rest s (f + 1) with
      | Except.error e => Except.error e
      | Except.ok r =>
          Except.ok ⟨r.succ, r.fail, mkInv scad_file output_dir pb battery host :: r.calls⟩

/-- Modelled from the spec: outer loop of the single parameterized driver. -/
def goGenericTable (env : Env) (scad_file output_dir : String)
    (pb : String → String → List (String × String)) :
    List (String × List String) → Nat → Nat → Except PyError LoopResult
  | [], s, f => Except.ok ⟨s, f, []⟩
  | (battery, hosts) :: rest, s, f =>
    match goGenericHosts env scad_file output_dir battery pb hosts s f with
    | Except.error e => Except.error e
    | Except.ok r =>
      match goGenericTable env scad_file output_dir pb rest r.succ r.fail with
      | Except.error e => Except.error e
      | Except.ok r2 => Except.ok ⟨r2.succ, r2.fail, r.calls ++ r2.calls⟩

/-- Modelled from the spec: the single parameterized driver taking (template
file, parameter-builder function, compatibility table) as configuration. -/
def generate_generic_stls (env : Env) (scad_file : String)
    (pb : String → String → List (String × String))
    (table : List (String × List String)) (output_dir : String) :
    Except PyError LoopResult :=
  goGenericTable env scad_file output_dir pb table 0 0

/-- The full sequence of invocations a table gives rise to, in table order. -/
def allInvs (scad_file output_dir : String)
    (pb : String → String → List (String × String))
    (table : List (String × List String)) : List Invocation :=
  table.flatMap (fun bh => bh.2.map (mkInv scad_file output_dir pb bh.1))

/-- All (battery, host) pairs of a compatibility table, in table order. -/
def pairsOf (table : List (String × List String)) : List (String × String) :=
  table.flatMap (fun bh => bh.2.map (fun h => (bh.1, h)))

/-- `True` exactly when the completed process exited with status 0; the
per-invocation success bit. -/
def outcomeOk : ProcOutcome → Bool
  | ProcOutcome.completed 0 _ => true
  | _ => false

/-- An environment in which the external executable is present: every
invocation yields a completed process (of whatever exit status). -/
def completedOnly (env : Env) : Prop :=
  ∀ inv, env inv ≠ ProcOutcome.execMissing

/-- A wall-clock time at second-level resolution, the granularity used by
both `strftime` format strings in the source. -/
structure Timestamp where
  year : Nat
  month : Nat
  day : Nat
  hour : Nat
  minute : Nat
  second : Nat
deriving DecidableEq

/-- Two-digit zero-padded decimal rendering, as `strftime` produces for
`%m`, `%d`, `%H`, `%M`, `%S` (fields below 100). -/
def pad2 (n : Nat) : List Char :=
  [Nat.digitChar (n / 10), Nat.digitChar (n % 10)]

/-- Four-digit zero-padded decimal rendering, as `strftime` produces for
`%Y` on years below 10000. -/
def pad4 (n : Nat) : List Char :=
  [Nat.digitChar (n / 1000), Nat.digitChar (n / 100 % 10),
   Nat.digitChar (n / 10 % 10), Nat.digitChar (n % 10)]

/-- Field ranges under which the `strftime` embedding is exact (a real
`datetime.now()` value always satisfies this for years below 10000). -/
def validTimestamp (t : Timestamp) : Prop :=
  t.year < 10000 ∧ 1 ≤ t.month ∧ t.month ≤ 12 ∧ 1 ≤ t.day ∧ t.day ≤ 31 ∧
    t.hour < 24 ∧ t.minute < 60 ∧ t.second < 60

instance (t : Timestamp) : Decidable (validTimestamp t) := by
  unfold validTimestamp; infer_instance

/-- Embedding of `datetime.now().strftime("Release-%Y-%m-%d_%H%M%S")`
(source line 135). -/
def releaseName (t : Timestamp) : String :=
  "Release-" ++ String.mk (pad4 t.year
    ++ '-' :: pad2 t.month ++ '-' :: pad2 t.day
    ++ '_' :: pad2 t.hour ++ pad2 t.minute ++ pad2 t.second)

/-- Embedding of `datetime.now().strftime('%Y-%m-%d %H:%M:%S')`
(source line 102), the manifest's generation stamp. -/
def manifestStamp (t : Timestamp) : String :=
  String.mk (pad4 t.year ++ '-' :: pad2 t.month ++ '-' :: pad2 t.day
    ++ ' ' :: pad2 t.hour ++ ':' :: pad2 t.minute ++ ':' :: pad2 t.second)

/-- A flat model of the directory tree: the list of directories that exist. -/
abbrev Dirs : Type := List String

/-- `Path.mkdir(parents=True, exist_ok=True)` (source line 142): creates the
directory if absent and is silently idempotent if it already exists — it is a
total function, never an error. -/
def mkdirParentsExistOk (fs : Dirs) (d : String) : Dirs :=
  if d ∈ fs then fs else d :: fs

/-- `len(BUTTON_CELL_COMPAT) + len(CYLINDER_COMPAT)` (source line 126). -/
def manifestTotalTypes : Nat :=
  BUTTON_CELL_COMPAT.length + CYLINDER_COMPAT.length

/-- `sum(len(hosts) for hosts in BUTTON_CELL_COMPAT.values()) +
sum(len(hosts) for hosts in CYLINDER_COMPAT.values())` (source line 127). -/
def manifestTotalFiles : Nat :=
  (BUTTON_CELL_COMPAT.map (fun bh => bh.2.length)).sum
    + (CYLINDER_COMPAT.map (fun bh => bh.2.length)).sum

/-- The static middle block of the manifest f-string (source lines 104-123):
the human-curated per-class file listing, transcribed verbatim. -/
def manifestStaticListing : String :=
  "## Button Cell Adapters (Coin Cells)\n\n"
    ++ "### CR2450 (24.5mm) - Largest coin cell\n- CR2450-D.stl (D holder only)\n\n"
    ++ "### CR2032 / CR2016 (20mm) - Standard coin cells\n- CR2032-D.stl, CR2032-C.stl\n- CR2016-D.stl, CR2016-C.stl\n\n"
    ++ "### CR1632 / CR1616 (16mm) - Smaller coin cells\n- CR1632-D.stl, CR1632-C.stl, CR1632-AA.stl\n- CR1616-D.stl, CR1616-C.stl, CR1616-AA.stl\n\n"
    ++ "## Cylindrical Battery Adapters\n\n"
    ++ "### A27 (7.75mm diameter, 28mm length)\n- A27-D.stl, A27-C.stl\n\n"
    ++ "### AAAA (8.3mm diameter, 42.5mm length)\n- AAAA-D.stl, AAAA-C.stl\n"

/-- The `.stl` filenames named by `manifestStaticListing`, in listing order
(one entry per `NAME.stl` occurrence in source lines 107-123). -/
def listedStlFiles : List String :=
  ["CR2450-D.stl",
   "CR2032-D.stl", "CR2032-C.stl",
   "CR2016-D.stl", "CR2016-C.stl",
   "CR1632-D.stl", "CR1632-C.stl", "CR1632-AA.stl",
   "CR1616-D.stl", "CR1616-C.stl", "CR1616-AA.stl",
   "A27-D.stl", "A27-C.stl",
   "AAAA-D.stl", "AAAA-C.stl"]

/-- The full manifest text built by `create_manifest` (source lines 101-128),
as a function of the `datetime.now()` value it reads. -/
def createManifestText (tm : Timestamp) : String :=
  "# BatteryDaddy Release Manifest\nGenerated: " ++ manifestStamp tm ++ "\n\n"
    ++ manifestStaticListing
    ++ "\n---\nTotal combinations: " ++ Nat.repr manifestTotalTypes
    ++ " battery types\nTotal files: " ++ Nat.repr manifestTotalFiles ++ " STLs\n"

/-- Observable result of a completed run of `main`: the exit status, the
paths it used, the four counters, the copy operations performed
(source name, destination path) and the manifest written. -/
structure MainResult where
  exitCode : Nat
  releaseDir : String
  stlDir : String
  dirsAfter : Dirs
  buttonSucc : Nat
  buttonFail : Nat
  cylinderSucc : Nat
  cylinderFail : Nat
  copiedFiles : List (String × String)
  manifestFile : String
  manifestText : String

/-- Embedding of `main()` (source lines 134-175). Explicit inputs: the
external-tool behaviour `env`, the two `datetime.now()` readings (release
naming at line 135, manifest stamp at line 102), the pre-existing directory
set, the `*.scad` files present in the working directory (in `glob` order)
and whether `README.md` exists. Per-pair tool failures are tallied; an
uncaught exception from a generation loop propagates. -/
def main' (env : Env) (t tm : Timestamp) (fs : Dirs)
    (cwdScadFiles : List String) (readmeExists : Bool) :
    Except PyError MainResult :=
  let release_name := releaseName t
  let release_dir := "releases" ++ "/" ++ release_name
  let stl_dir := release_dir ++ "/" ++ "stls"
  let fs2 := mkdirParentsExistOk fs stl_dir
  match generate_button_cell_stls env stl_dir with
  | Except.error e => Except.error e
  | Except.ok rb =>
    match generate_cylinder_stls env stl_dir with
    | Except.error e => Except.error e
    | Except.ok rc =>
      let copies := cwdScadFiles.map (fun n => (n, release_dir ++ "/" ++ n))
        ++ (if readmeExists then [("README.md", release_dir ++ "/" ++ "README.md")] else [])
      let total_fail := rb.fail + rc.fail
      Except.ok
        ⟨if total_fail = 0 then 0 else 1,
         release_dir, stl_dir, fs2,
         rb.succ, rb.fail, rc.succ, rc.fail,
         copies,
         release_dir ++ "/" ++ "MANIFEST.txt",
         createManifestText tm⟩

/-- The per-invocation success bit of the completed process, as `None` /
`Some stderr`: what `run_openscad` hands back as its second component. -/
def outcomeErr : ProcOutcome → Option String
  | ProcOutcome.completed 0 _ => none
  | ProcOutcome.completed (_ + 1) e => some e
  | ProcOutcome.execMissing => none

/-- Sum of the host-list lengths of a table: the number of (battery, host)
pairs it gives rise to. -/
def hostCountSum (table : List (String × List String)) : Nat :=
  (table.map (fun bh => bh.2.length)).sum

/-- The invocation sequence of the button-cell loop, in table order. -/
def buttonInvs (output_dir : String) : List Invocation :=
  allInvs "button_cell_adapter.scad" output_dir buttonCellParams BUTTON_CELL_COMPAT

/-- The invocation sequence of the cylinder loop, in table order. -/
def cylinderInvs (output_dir : String) : List Invocation :=
  allInvs "cylinder_battery_adapter.scad" output_dir cylinderParams CYLINDER_COMPAT

/-- How many of the given invocations succeed under `env`. -/
def succCount (env : Env) (l : List Invocation) : Nat :=
  l.countP (fun i => outcomeOk (env i))

/-- How many of the given invocations fail under `env`. -/
def failCount (env : Env) (l : List Invocation) : Nat :=
  l.countP (fun i => ! outcomeOk (env i))

/-- The release directory `releases/<release_name>` of a run started at `t`. -/
def releaseDirOf (t : Timestamp) : String :=
  "releases" ++ "/" ++ releaseName t

/-- The `stls` subdirectory of the release directory. -/
def stlDirOf (t : Timestamp) : String :=
  releaseDirOf t ++ "/" ++ "stls"

/-- A stub environment in which every invocation succeeds. -/
def allSuccessEnv : Env := fun _ => ProcOutcome.completed 0 ""

/-- A stub environment in which the executable is missing on every attempt. -/
def allMissingEnv : Env := fun _ => ProcOutcome.execMissing

/-- A stub environment that fails (exit status 1) exactly the invocations of
the given template file with the given parameter assignment — i.e. exactly
one (battery class, battery, host) combination — and succeeds all others. -/
def pointFailEnv (scad : String) (ps : List (String × String)) : Env :=
  fun inv =>
    if inv.scadFile = scad ∧ inv.params = ps then ProcOutcome.completed 1 ""
    else ProcOutcome.completed 0 ""

/-! ### Helper lemmas -/

lemma completedOnly_spec {env : Env} (h : completedOnly env) (inv : Invocation) :
    ∃ code err, env inv = ProcOutcome.completed code err := by
  cases hi : env inv with
  | completed c e => exact ⟨c, e, rfl⟩
  | execMissing => exact absurd hi (h inv)

lemma run_openscad_of_exit_zero {env : Env} {scad out : String}
    {params : List (String × String)} {err : String}
    (h : env ⟨scad, out, params⟩ = ProcOutcome.completed 0 err) :
    run_openscad env scad out params = Except.ok (true, none) := by
  unfold run_openscad subprocessRunCheck
  rw [h]

lemma run_openscad_of_exit_nonzero {env : Env} {scad out : String}
    {params : List (String × String)} {code : Nat} {err : String}
    (h : env ⟨scad, out, params⟩ = ProcOutcome.completed (code + 1) err) :
    run_openscad env scad out params = Except.ok (false, some err) := by
  unfold run_openscad subprocessRunCheck
  rw [h]

lemma run_openscad_of_missing {env : Env} {scad out : String}
    {params : List (String × String)}
    (h : env ⟨scad, out, params⟩ = ProcOutcome.execMissing) :
    run_openscad env scad out params = Except.error PyError.fileNotFoundError := by
  unfold run_openscad subprocessRunCheck
  rw [h]

lemma countP_add_countP_not {α : Type} (p : α → Bool) (l : List α) :
    l.countP p + l.countP (fun a => ! p a) = l.length := by
  induction l with
  | nil => simp
  | cons x xs ih =>
    by_cases hp : p x
    · simp [List.countP_cons, hp, ← ih]; omega
    · simp [List.countP_cons, hp, ← ih]; omega

lemma goGenericHosts_spec {env : Env} (h : completedOnly env)
    (scad od b : String) (pb : String → String → List (String × String))
    (hosts : List String) :
    ∀ s f, goGenericHosts env scad od b pb hosts s f =
      Except.ok ⟨s + (hosts.map (mkInv scad od pb b)).countP (fun i => outcomeOk (env i)),
                 f + (hosts.map (mkInv scad od pb b)).countP (fun i => ! outcomeOk (env i)),
                 hosts.map (mkInv scad od pb b)⟩ := by
  induction hosts with
  | nil => intro s f; simp [goGenericHosts]
  | cons host rest ih =>
    intro s f
    obtain ⟨code, err, hc⟩ := completedOnly_spec h (mkInv scad od pb b host)
    have hc' : env ⟨scad, stlPath od b host, pb b host⟩ = ProcOutcome.completed code err := hc
    cases code with
    | zero =>
      have hro := run_openscad_of_exit_zero hc'
      have hok : outcomeOk (env (mkInv scad od pb b host)) = true := by
        rw [hc]; rfl
      simp only [goGenericHosts, hro, ih]
      simp [List.countP_cons, hok]
      omega
    | succ c =>
      have hro := run_openscad_of_exit_nonzero hc'
      have hok : outcomeOk (env (mkInv scad od pb b host)) = false := by
        rw [hc]; rfl
      simp only [goGenericHosts, hro, ih]
      simp [List.countP_cons, hok]
      omega

lemma goGenericTable_spec {env : Env} (h : completedOnly env)
    (scad od : String) (pb : String → String → List (String × String))
    (table : List (String × List String)) :
    ∀ s f, goGenericTable env scad od pb table s f =
      Except.ok ⟨s + (allInvs scad od pb table).countP (fun i => outcomeOk (env i)),
                 f + (allInvs scad od pb table).countP (fun i => ! outcomeOk (env i)),
                 allInvs scad od pb table⟩ := by
  induction table with
  | nil => intro s f; simp [goGenericTable, allInvs]
  | cons bh rest ih =>
    intro s f
    obtain ⟨battery, hosts⟩ := bh
    simp only [goGenericTable, goGenericHosts_spec h, ih]
    simp [allInvs, List.countP_append]
    constructor <;> omega

lemma generate_generic_stls_spec {env : Env} (h : completedOnly env)
    (scad : String) (pb : String → String → List (String × String))
    (table : List (String × List String)) (od : String) :
    generate_generic_stls env scad pb table od =
      Except.ok ⟨(allInvs scad od pb table).countP (fun i => outcomeOk (env i)),
                 (allInvs scad od pb table).countP (fun i => ! outcomeOk (env i)),
                 allInvs scad od pb table⟩ := by
  unfold generate_generic_stls
  rw [goGenericTable_spec h]
  simp

lemma goButtonHosts_eq_generic (env : Env) (od b : String) (hosts : List String) :
    ∀ s f, goButtonHosts env od b hosts s f =
      goGenericHosts env "button_cell_adapter.scad" od b buttonCellParams hosts s f := by
  induction hosts with
  | nil => intro s f; rfl
  | cons host rest ih =>
    intro s f
    simp only [goButtonHosts, goGenericHosts, ih]

lemma goButtonTable_eq_generic (env : Env) (od : String)
    (table : List (String × List String)) :
    ∀ s f, goButtonTable env od table s f =
      goGenericTable env "button_cell_adapter.scad" od buttonCellParams table s f := by
  induction table with
  | nil => intro s f; rfl
  | cons bh rest ih =>
    intro s f
    obtain ⟨battery, hosts⟩ := bh
    simp only [goButtonTable, goGenericTable, goButtonHosts_eq_generic, ih]

lemma goCylinderHosts_eq_generic (env : Env) (od b : String) (hosts : List String) :
    ∀ s f, goCylinderHosts env od b hosts s f =
      goGenericHosts env "cylinder_battery_adapter.scad" od b cylinderParams hosts s f := by
  induction hosts with
  | nil => intro s f; rfl
  | cons host rest ih =>
    intro s f
    simp only [goCylinderHosts, goGenericHosts, ih]

lemma goCylinderTable_eq_generic (env : Env) (od : String)
    (table : List (String × List String)) :
    ∀ s f, goCylinderTable env od table s f =
      goGenericTable env "cylinder_battery_adapter.scad" od cylinderParams table s f := by
  induction table with
  | nil => intro s f; rfl
  | cons bh rest ih =>
    intro s f
    obtain ⟨battery, hosts⟩ := bh
    simp only [goCylinderTable, goGenericTable, goCylinderHosts_eq_generic, ih]

lemma generate_button_cell_stls_spec {env : Env} (h : completedOnly env) (od : String) :
    generate_button_cell_stls env od =
      Except.ok ⟨succCount env (buttonInvs od), failCount env (buttonInvs od), buttonInvs od⟩ := by
  unfold generate_button_cell_stls succCount failCount buttonInvs
  rw [goButtonTable_eq_generic, goGenericTable_spec h]
  simp

lemma generate_cylinder_stls_spec {env : Env} (h : completedOnly env) (od : String) :
    generate_cylinder_stls env od =
      Except.ok ⟨succCount env (cylinderInvs od), failCount env (cylinderInvs od), cylinderInvs od⟩ := by
  unfold generate_cylinder_stls succCount failCount cylinderInvs
  rw [goCylinderTable_eq_generic, goGenericTable_spec h]
  simp

lemma main'_spec {env : Env} (h : completedOnly env) (t tm : Timestamp)
    (fs : Dirs) (files : List String) (readme : Bool) :
    main' env t tm fs files readme =
      Except.ok
        ⟨if failCount env (buttonInvs (stlDirOf t)) + failCount env (cylinderInvs (stlDirOf t)) = 0
            then 0 else 1,
         releaseDirOf t, stlDirOf t,
         mkdirParentsExistOk fs (stlDirOf t),
         succCount env (buttonInvs (stlDirOf t)), failCount env (buttonInvs (stlDirOf t)),
         succCount env (cylinderInvs (stlDirOf t)), failCount env (cylinderInvs (stlDirOf t)),
         files.map (fun n => (n, releaseDirOf t ++ "/" ++ n))
           ++ (if readme then [("README.md", releaseDirOf t ++ "/" ++ "README.md")] else []),
         releaseDirOf t ++ "/" ++ "MANIFEST.txt",
         createManifestText tm⟩ := by
  simp only [main', generate_button_cell_stls_spec h, generate_cylinder_stls_spec h]
  rfl

lemma digitChar_injOn : ∀ a, a < 10 → ∀ b, b < 10 → Nat.digitChar a = Nat.digitChar b → a = b := by
  decide

lemma releaseName_inj {t1 t2 : Timestamp}
    (hv1 : validTimestamp t1) (hv2 : validTimestamp t2)
    (h : releaseName t1 = releaseName t2) : t1 = t2 := by
  obtain ⟨y1, mo1, dy1, hr1, mi1, se1⟩ := t1
  obtain ⟨y2, mo2, dy2, hr2, mi2, se2⟩ := t2
  obtain ⟨hy1, hmo1, hmo1b, hdy1, hdy1b, hhr1, hmi1, hse1⟩ := hv1
  obtain ⟨hy2, hmo2, hmo2b, hdy2, hdy2b, hhr2, hmi2, hse2⟩ := hv2
  simp only at hy1 hmo1 hmo1b hdy1 hdy1b hhr1 hmi1 hse1 hy2 hmo2 hmo2b hdy2 hdy2b hhr2 hmi2 hse2
  unfold releaseName at h
  have hdata := congrArg String.data h
  simp only [String.data_append] at hdata
  have hlist := List.append_cancel_left hdata
  simp [pad4, pad2, List.cons_append, List.nil_append] at hlist
  obtain ⟨e1, e2, e3, e4, e5, e6, e7, e8, e9, e10, e11, e12, e13, e14⟩ := hlist
  have f1 := digitChar_injOn _ (by omega) _ (by omega) e1
  have f2 := digitChar_injOn _ (by omega) _ (by omega) e2
  have f3 := digitChar_injOn _ (by omega) _ (by omega) e3
  have f4 := digitChar_injOn _ (by omega) _ (by omega) e4
  have f5 := digitChar_injOn _ (by omega) _ (by omega) e5
  have f6 := digitChar_injOn _ (by omega) _ (by omega) e6
  have f7 := digitChar_injOn _ (by omega) _ (by omega) e7
  have f8 := digitChar_injOn _ (by omega) _ (by omega) e8
  have f9 := digitChar_injOn _ (by omega) _ (by omega) e9
  have f10 := digitChar_injOn _ (by omega) _ (by omega) e10
  have f11 := digitChar_injOn _ (by omega) _ (by omega) e11
  have f12 := digitChar_injOn _ (by omega) _ (by omega) e12
  have f13 := digitChar_injOn _ (by omega) _ (by omega) e13
  have f14 := digitChar_injOn _ (by omega) _ (by omega) e14
  simp only [Timestamp.mk.injEq]
  exact ⟨by omega, by omega, by omega, by omega, by omega, by omega⟩

lemma allInvs_eq_pairs_map (scad od : String)
    (pb : String → String → List (String × String))
    (table : List (String × List String)) :
    allInvs scad od pb table = (pairsOf table).map (fun p => mkInv scad od pb p.1 p.2) := by
  simp [allInvs, pairsOf, List.map_flatMap, List.map_map, Function.comp_def]

lemma allInvs_length (scad od : String)
    (pb : String → String → List (String × String))
    (table : List (String × List String)) :
    (allInvs scad od pb table).length = hostCountSum table := by
  induction table with
  | nil => rfl
  | cons bh rest ih => simp [allInvs, hostCountSum, List.flatMap_cons] at ih ⊢; omega

lemma failCount_append (env : Env) (l1 l2 : List Invocation) :
    failCount env (l1 ++ l2) = failCount env l1 + failCount env l2 := by
  simp [failCount, List.countP_append]

lemma failCount_eq_zero_iff (env : Env) (l : List Invocation) :
    failCount env l = 0 ↔ ∀ i ∈ l, outcomeOk (env i) = true := by
  simp [failCount, List.countP_eq_zero]

lemma failCount_pos_iff (env : Env) (l : List Invocation) :
    0 < failCount env l ↔ ∃ i ∈ l, outcomeOk (env i) = false := by
  simp [failCount, List.countP_pos_iff]

lemma completedOnly_allSuccess : completedOnly allSuccessEnv := by
  intro inv
  simp [allSuccessEnv]

lemma completedOnly_pointFail (scad : String) (ps : List (String × String)) :
    completedOnly (pointFailEnv scad ps) := by
  intro inv
  unfold pointFailEnv
  split <;> simp

/-! ### Claim theorems -/

/-- C9: the button-cell and cylinder generation loops are behaviourally
identical up to configuration: for every invoker behaviour and output
directory, each equals the single parameterized driver instantiated with its
class's template file, parameter builder and compatibility table — same
success/failure counters, same invocation sequence, same propagated error. -/
theorem c9_loops_refine_generic_driver :
    ∀ (env : Env) (output_dir : String),
      generate_button_cell_stls env output_dir =
        generate_generic_stls env "button_cell_adapter.scad" buttonCellParams
          BUTTON_CELL_COMPAT output_dir ∧
      generate_cylinder_stls env output_dir =
        generate_generic_stls env "cylinder_battery_adapter.scad" cylinderParams
          CYLINDER_COMPAT output_dir := by
  intro env od
  exact ⟨goButtonTable_eq_generic env od BUTTON_CELL_COMPAT 0 0,
         goCylinderTable_eq_generic env od CYLINDER_COMPAT 0 0⟩

/-- C3: whenever the external process runs to completion with exit status
`code`, `run_openscad` returns success with no error text iff `code = 0`, and
on a nonzero `code` returns failure together with the captured stderr. -/
theorem c3_run_openscad_result :
    ∀ (env : Env) (scad_file output_file : String) (params : List (String × String))
      (code : Nat) (err : String),
      env ⟨scad_file, output_file, params⟩ = ProcOutcome.completed code err →
      ((run_openscad env scad_file output_file params = Except.ok (true, none) ↔ code = 0) ∧
       (code ≠ 0 →
         run_openscad env scad_file output_file params = Except.ok (false, some err))) := by
  intro env scad out params code err h
  cases code with
  | zero =>
    have hr := run_openscad_of_exit_zero h
    simp [hr]
  | succ c =>
    have hr := run_openscad_of_exit_nonzero h
    simp [hr]

/-- Witness for C3 at a concrete environment with exit status 2. -/
theorem c3_run_openscad_result_witness :
    ((run_openscad (fun _ => ProcOutcome.completed 2 "boom") "t.scad" "o.stl" [] =
        Except.ok (true, none) ↔ 2 = 0) ∧
     (2 ≠ 0 →
       run_openscad (fun _ => ProcOutcome.completed 2 "boom") "t.scad" "o.stl" [] =
         Except.ok (false, some "boom"))) :=
  c3_run_openscad_result (fun _ => ProcOutcome.completed 2 "boom") "t.scad" "o.stl" [] 2 "boom" rfl

/-- C4 counterexample: with the executable missing on every attempt, the
loops do not record per-pair failures and continue — the very first
invocation raises `FileNotFoundError`, which nothing catches, so both loops
and the whole run abort abnormally. -/
theorem c4_missing_exec_counterexample :
    generate_button_cell_stls allMissingEnv "stls" = Except.error PyError.fileNotFoundError ∧
    generate_cylinder_stls allMissingEnv "stls" = Except.error PyError.fileNotFoundError ∧
    main' allMissingEnv ⟨2025, 10, 12, 8, 30, 0⟩ ⟨2025, 10, 12, 8, 30, 0⟩ [] [] false =
      Except.error PyError.fileNotFoundError ∧
    ∀ r : LoopResult, generate_button_cell_stls allMissingEnv "stls" ≠ Except.ok r := by
  refine ⟨rfl, rfl, rfl, ?_⟩
  intro r hr
  rw [show generate_button_cell_stls allMissingEnv "stls" =
        Except.error PyError.fileNotFoundError from rfl] at hr
  cases hr

/-- C4 (amended): when the external executable is missing, `run_openscad`
raises `FileNotFoundError` (it catches only `CalledProcessError`), so the
first invocation aborts each loop and the whole run abnormally; no per-pair
failure is counted and no later pair is attempted. -/
theorem c4_missing_exec_amended :
    ∀ (env : Env), (∀ inv, env inv = ProcOutcome.execMissing) →
    ∀ (scad out : String) (params : List (String × String)) (t tm : Timestamp)
      (fs : Dirs) (files : List String) (readme : Bool) (od : String),
      run_openscad env scad out params = Except.error PyError.fileNotFoundError ∧
      generate_button_cell_stls env od = Except.error PyError.fileNotFoundError ∧
      generate_cylinder_stls env od = Except.error PyError.fileNotFoundError ∧
      main' env t tm fs files readme = Except.error PyError.fileNotFoundError := by
  intro env h scad out params t tm fs files readme od
  have hro : ∀ (sc o : String) (p : List (String × String)),
      run_openscad env sc o p = Except.error PyError.fileNotFoundError :=
    fun sc o p => run_openscad_of_missing (h _)
  refine ⟨hro _ _ _, ?_, ?_, ?_⟩
  · simp [generate_button_cell_stls, BUTTON_CELL_COMPAT, goButtonTable, goButtonHosts, hro]
  · simp [generate_cylinder_stls, CYLINDER_COMPAT, goCylinderTable, goCylinderHosts, hro]
  · simp [main', generate_button_cell_stls, BUTTON_CELL_COMPAT, goButtonTable, goButtonHosts, hro]

/-- Witness for C4 (amended) at the concrete all-missing environment. -/
theorem c4_missing_exec_witness :
    run_openscad allMissingEnv "t.scad" "o.stl" [] = Except.error PyError.fileNotFoundError ∧
    generate_button_cell_stls allMissingEnv "out" = Except.error PyError.fileNotFoundError ∧
    generate_cylinder_stls allMissingEnv "out" = Except.error PyError.fileNotFoundError ∧
    main' allMissingEnv ⟨2025, 1, 1, 0, 0, 0⟩ ⟨2025, 1, 1, 0, 0, 0⟩ [] [] false =
      Except.error PyError.fileNotFoundError :=
  c4_missing_exec_amended allMissingEnv (fun _ => rfl) "t.scad" "o.stl" []
    ⟨2025, 1, 1, 0, 0, 0⟩ ⟨2025, 1, 1, 0, 0, 0⟩ [] [] false "out"

/-- C2: in an environment where every attempt completes, each loop makes one
invocation per (battery, host) pair in table order, targeting
`output_dir/{battery}-{host}.stl`; the number of attempts is the sum of the
host-list lengths over the table, and successes plus failures equal the
number of attempts. -/
theorem c2_attempt_enumeration :
    ∀ (env : Env), completedOnly env → ∀ od : String,
      ∃ rb rc,
        generate_button_cell_stls env od = Except.ok rb ∧
        generate_cylinder_stls env od = Except.ok rc ∧
        rb.calls = (pairsOf BUTTON_CELL_COMPAT).map
          (fun p => ⟨"button_cell_adapter.scad", od ++ "/" ++ stlName p.1 p.2,
                     buttonCellParams p.1 p.2⟩) ∧
        rc.calls = (pairsOf CYLINDER_COMPAT).map
          (fun p => ⟨"cylinder_battery_adapter.scad", od ++ "/" ++ stlName p.1 p.2,
                     cylinderParams p.1 p.2⟩) ∧
        rb.calls.length = hostCountSum BUTTON_CELL_COMPAT ∧
        rc.calls.length = hostCountSum CYLINDER_COMPAT ∧
        rb.succ + rb.fail = rb.calls.length ∧
        rc.succ + rc.fail = rc.calls.length := by
  intro env h od
  refine ⟨_, _, generate_button_cell_stls_spec h od, generate_cylinder_stls_spec h od,
    ?hbc, ?hcc, ?hbl, ?hcl, ?hbt, ?hct⟩
  · show buttonInvs od = _
    rw [buttonInvs, allInvs_eq_pairs_map]
    rfl
  · show cylinderInvs od = _
    rw [cylinderInvs, allInvs_eq_pairs_map]
    rfl
  · show (buttonInvs od).length = _
    rw [buttonInvs, allInvs_length]
  · show (cylinderInvs od).length = _
    rw [cylinderInvs, allInvs_length]
  · show succCount env (buttonInvs od) + failCount env (buttonInvs od) = (buttonInvs od).length
    simp [succCount, failCount, countP_add_countP_not]
  · show succCount env (cylinderInvs od) + failCount env (cylinderInvs od) = (cylinderInvs od).length
    simp [succCount, failCount, countP_add_countP_not]

/-- Witness for C2 at the concrete all-success environment. -/
theorem c2_attempt_enumeration_witness :
    ∃ rb rc,
      generate_button_cell_stls allSuccessEnv "out" = Except.ok rb ∧
      generate_cylinder_stls allSuccessEnv "out" = Except.ok rc ∧
      rb.calls = (pairsOf BUTTON_CELL_COMPAT).map
        (fun p => ⟨"button_cell_adapter.scad", "out" ++ "/" ++ stlName p.1 p.2,
                   buttonCellParams p.1 p.2⟩) ∧
      rc.calls = (pairsOf CYLINDER_COMPAT).map
        (fun p => ⟨"cylinder_battery_adapter.scad", "out" ++ "/" ++ stlName p.1 p.2,
                   cylinderParams p.1 p.2⟩) ∧
      rb.calls.length = hostCountSum BUTTON_CELL_COMPAT ∧
      rc.calls.length = hostCountSum CYLINDER_COMPAT ∧
      rb.succ + rb.fail = rb.calls.length ∧
      rc.succ + rc.fail = rc.calls.length :=
  c2_attempt_enumeration allSuccessEnv completedOnly_allSuccess "out"

/-- C1: in an environment where every attempt completes, the run returns
exit status 0 iff every invocation across both battery classes succeeded,
and exit status 1 iff at least one invocation failed. -/
theorem c1_exit_status :
    ∀ (env : Env), completedOnly env →
    ∀ (t tm : Timestamp) (fs : Dirs) (files : List String) (readme : Bool),
      ∃ r, main' env t tm fs files readme = Except.ok r ∧
        (r.exitCode = 0 ↔
          ∀ i ∈ buttonInvs (stlDirOf t) ++ cylinderInvs (stlDirOf t),
            outcomeOk (env i) = true) ∧
        (r.exitCode = 1 ↔
          ∃ i ∈ buttonInvs (stlDirOf t) ++ cylinderInvs (stlDirOf t),
            outcomeOk (env i) = false) := by
  intro env h t tm fs files readme
  refine ⟨_, main'_spec h t tm fs files readme, ?_, ?_⟩
  · show (if failCount env (buttonInvs (stlDirOf t)) + failCount env (cylinderInvs (stlDirOf t)) = 0
        then (0 : Nat) else 1) = 0 ↔ _
    rw [← failCount_append]
    by_cases hz : failCount env (buttonInvs (stlDirOf t) ++ cylinderInvs (stlDirOf t)) = 0
    · rw [if_pos hz]
      exact iff_of_true rfl ((failCount_eq_zero_iff _ _).mp hz)
    · rw [if_neg hz]
      refine iff_of_false (by omega) ?_
      intro hall
      exact hz ((failCount_eq_zero_iff _ _).mpr hall)
  · show (if failCount env (buttonInvs (stlDirOf t)) + failCount env (cylinderInvs (stlDirOf t)) = 0
        then (0 : Nat) else 1) = 1 ↔ _
    rw [← failCount_append]
    by_cases hz : failCount env (buttonInvs (stlDirOf t) ++ cylinderInvs (stlDirOf t)) = 0
    · rw [if_pos hz]
      refine iff_of_false (by omega) ?_
      rintro ⟨i, hi, hf⟩
      have := (failCount_eq_zero_iff _ _).mp hz i hi
      rw [this] at hf
      cases hf
    · rw [if_neg hz]
      exact iff_of_true rfl ((failCount_pos_iff _ _).mp (Nat.pos_of_ne_zero hz))

/-- Witness for C1 at a concrete environment failing one invocation. -/
theorem c1_exit_status_witness :
    ∃ r, main' (pointFailEnv "button_cell_adapter.scad" (buttonCellParams "CR2032" "C"))
        ⟨2025, 10, 12, 8, 30, 0⟩ ⟨2025, 10, 12, 8, 30, 0⟩ [] [] false = Except.ok r ∧
      (r.exitCode = 0 ↔
        ∀ i ∈ buttonInvs (stlDirOf ⟨2025, 10, 12, 8, 30, 0⟩)
            ++ cylinderInvs (stlDirOf ⟨2025, 10, 12, 8, 30, 0⟩),
          outcomeOk (pointFailEnv "button_cell_adapter.scad" (buttonCellParams "CR2032" "C") i)
            = true) ∧
      (r.exitCode = 1 ↔
        ∃ i ∈ buttonInvs (stlDirOf ⟨2025, 10, 12, 8, 30, 0⟩)
            ++ cylinderInvs (stlDirOf ⟨2025, 10, 12, 8, 30, 0⟩),
          outcomeOk (pointFailEnv "button_cell_adapter.scad" (buttonCellParams "CR2032" "C") i)
            = false) :=
  c1_exit_status _ (completedOnly_pointFail _ _) ⟨2025, 10, 12, 8, 30, 0⟩
    ⟨2025, 10, 12, 8, 30, 0⟩ [] [] false

/-- C6: the manifest's total battery-type count is the number of keys of the
two tables (7) and its total file count is the sum of the host-list lengths
(13); both are computed from the tables alone, so the manifest text is the
same whatever the per-pair outcomes of the run were. -/
theorem c6_manifest_totals :
    manifestTotalTypes = BUTTON_CELL_COMPAT.length + CYLINDER_COMPAT.length ∧
    manifestTotalFiles = hostCountSum BUTTON_CELL_COMPAT + hostCountSum CYLINDER_COMPAT ∧
    manifestTotalTypes = 7 ∧
    manifestTotalFiles = 13 ∧
    (∀ (env1 env2 : Env), completedOnly env1 → completedOnly env2 →
      ∀ (t tm : Timestamp) (fs : Dirs) (files : List String) (readme : Bool),
        ∃ r1 r2, main' env1 t tm fs files readme = Except.ok r1 ∧
          main' env2 t tm fs files readme = Except.ok r2 ∧
          r1.manifestText = createManifestText tm ∧
          r1.manifestText = r2.manifestText) := by
  refine ⟨rfl, rfl, rfl, rfl, ?_⟩
  intro env1 env2 h1 h2 t tm fs files readme
  exact ⟨_, _, main'_spec h1 t tm fs files readme, main'_spec h2 t tm fs files readme, rfl, rfl⟩

/-- Witness for C6: an all-success run and a run with one failure produce
the same manifest text. -/
theorem c6_manifest_totals_witness :
    ∃ r1 r2,
      main' allSuccessEnv ⟨2025, 10, 12, 8, 30, 0⟩ ⟨2025, 10, 12, 8, 30, 0⟩ [] [] false =
        Except.ok r1 ∧
      main' (pointFailEnv "button_cell_adapter.scad" (buttonCellParams "CR2032" "C"))
          ⟨2025, 10, 12, 8, 30, 0⟩ ⟨2025, 10, 12, 8, 30, 0⟩ [] [] false = Except.ok r2 ∧
      r1.manifestText = createManifestText ⟨2025, 10, 12, 8, 30, 0⟩ ∧
      r1.manifestText = r2.manifestText :=
  c6_manifest_totals.2.2.2.2 allSuccessEnv
    (pointFailEnv "button_cell_adapter.scad" (buttonCellParams "CR2032" "C"))
    completedOnly_allSuccess (completedOnly_pointFail _ _)
    ⟨2025, 10, 12, 8, 30, 0⟩ ⟨2025, 10, 12, 8, 30, 0⟩ [] [] false

/-- C10: the per-pair outcomes influence only the exit status and the
counters — the copied files, the manifest path and text, and the directories
of a completing run are identical to those of the fully successful run with
the same timestamps and working-directory contents. -/
theorem c10_outcomes_frame :
    ∀ (env : Env), completedOnly env →
    ∀ (t tm : Timestamp) (fs : Dirs) (files : List String) (readme : Bool),
      ∃ r rs, main' env t tm fs files readme = Except.ok r ∧
        main' allSuccessEnv t tm fs files readme = Except.ok rs ∧
        r.copiedFiles = rs.copiedFiles ∧
        r.manifestFile = rs.manifestFile ∧
        r.manifestText = rs.manifestText ∧
        r.releaseDir = rs.releaseDir ∧
        r.stlDir = rs.stlDir ∧
        r.dirsAfter = rs.dirsAfter := by
  intro env h t tm fs files readme
  exact ⟨_, _, main'_spec h t tm fs files readme,
    main'_spec completedOnly_allSuccess t tm fs files readme, rfl, rfl, rfl, rfl, rfl, rfl⟩

/-- Witness for C10 at a concrete environment failing one invocation. -/
theorem c10_outcomes_frame_witness :
    ∃ r rs,
      main' (pointFailEnv "cylinder_battery_adapter.scad" (cylinderParams "A27" "D"))
          ⟨2025, 10, 12, 8, 30, 0⟩ ⟨2025, 10, 12, 8, 30, 0⟩ ["x.scad"] ["button_cell_adapter.scad"]
          true = Except.ok r ∧
      main' allSuccessEnv ⟨2025, 10, 12, 8, 30, 0⟩ ⟨2025, 10, 12, 8, 30, 0⟩ ["x.scad"]
          ["button_cell_adapter.scad"] true = Except.ok rs ∧
      r.copiedFiles = rs.copiedFiles ∧
      r.manifestFile = rs.manifestFile ∧
      r.manifestText = rs.manifestText ∧
      r.releaseDir = rs.releaseDir ∧
      r.stlDir = rs.stlDir ∧
      r.dirsAfter = rs.dirsAfter :=
  c10_outcomes_frame _ (completedOnly_pointFail _ _) ⟨2025, 10, 12, 8, 30, 0⟩
    ⟨2025, 10, 12, 8, 30, 0⟩ ["x.scad"] ["button_cell_adapter.scad"] true

/-- C5: with a stub invoker failing exactly one (battery, host) pair of one
battery class and succeeding on every other invocation, the run exits with
status 1, the failing class's failure counter is 1 and the other class's
failure counter is 0. -/
theorem c5_single_pair_failure :
    ∀ (t tm : Timestamp) (fs : Dirs) (files : List String) (readme : Bool)
      (p : String × String),
      (p ∈ pairsOf BUTTON_CELL_COMPAT →
        ∃ r, main' (pointFailEnv "button_cell_adapter.scad" (buttonCellParams p.1 p.2))
            t tm fs files readme = Except.ok r ∧
          r.exitCode = 1 ∧ r.buttonFail = 1 ∧ r.cylinderFail = 0) ∧
      (p ∈ pairsOf CYLINDER_COMPAT →
        ∃ r, main' (pointFailEnv "cylinder_battery_adapter.scad" (cylinderParams p.1 p.2))
            t tm fs files readme = Except.ok r ∧
          r.exitCode = 1 ∧ r.cylinderFail = 1 ∧ r.buttonFail = 0) := by
  intro t tm fs files readme p
  constructor
  · intro hmem
    have hcyl : failCount (pointFailEnv "button_cell_adapter.scad" (buttonCellParams p.1 p.2))
        (cylinderInvs (stlDirOf t)) = 0 := by
      simp +decide [failCount, cylinderInvs, allInvs, CYLINDER_COMPAT, pointFailEnv, mkInv,
        outcomeOk, List.countP_cons, List.flatMap_cons, List.flatMap_nil]
    have hbtn : failCount (pointFailEnv "button_cell_adapter.scad" (buttonCellParams p.1 p.2))
        (buttonInvs (stlDirOf t)) = 1 := by
      fin_cases hmem <;>
      simp +decide [failCount, buttonInvs, allInvs, BUTTON_CELL_COMPAT, pointFailEnv, mkInv,
        outcomeOk, buttonCellParams, List.countP_cons, List.flatMap_cons, List.flatMap_nil]
    refine ⟨_, main'_spec (completedOnly_pointFail _ _) t tm fs files readme, ?_, hbtn, hcyl⟩
    show (if failCount (pointFailEnv "button_cell_adapter.scad" (buttonCellParams p.1 p.2))
          (buttonInvs (stlDirOf t))
        + failCount (pointFailEnv "button_cell_adapter.scad" (buttonCellParams p.1 p.2))
          (cylinderInvs (stlDirOf t)) = 0 then (0 : Nat) else 1) = 1
    rw [hbtn, hcyl]
    rfl
  · intro hmem
    have hbtn : failCount (pointFailEnv "cylinder_battery_adapter.scad" (cylinderParams p.1 p.2))
        (buttonInvs (stlDirOf t)) = 0 := by
      simp +decide [failCount, buttonInvs, allInvs, BUTTON_CELL_COMPAT, pointFailEnv, mkInv,
        outcomeOk, List.countP_cons, List.flatMap_cons, List.flatMap_nil]
    have hcyl : failCount (pointFailEnv "cylinder_battery_adapter.scad" (cylinderParams p.1 p.2))
        (cylinderInvs (stlDirOf t)) = 1 := by
      fin_cases hmem <;>
      simp +decide [failCount, cylinderInvs, allInvs, CYLINDER_COMPAT, pointFailEnv, mkInv,
        outcomeOk, cylinderParams, List.countP_cons, List.flatMap_cons, List.flatMap_nil]
    refine ⟨_, main'_spec (completedOnly_pointFail _ _) t tm fs files readme, ?_, hcyl, hbtn⟩
    show (if failCount (pointFailEnv "cylinder_battery_adapter.scad" (cylinderParams p.1 p.2))
          (buttonInvs (stlDirOf t))
        + failCount (pointFailEnv "cylinder_battery_adapter.scad" (cylinderParams p.1 p.2))
          (cylinderInvs (stlDirOf t)) = 0 then (0 : Nat) else 1) = 1
    rw [hbtn, hcyl]
    rfl

/-- Witness for C5 at the concrete pair (CR2032, C). -/
theorem c5_single_pair_failure_witness :
    ∃ r, main' (pointFailEnv "button_cell_adapter.scad"
        (buttonCellParams ("CR2032", "C").1 ("CR2032", "C").2))
        ⟨2025, 10, 12, 8, 30, 0⟩ ⟨2025, 10, 12, 8, 30, 0⟩ [] [] false = Except.ok r ∧
      r.exitCode = 1 ∧ r.buttonFail = 1 ∧ r.cylinderFail = 0 :=
  (c5_single_pair_failure ⟨2025, 10, 12, 8, 30, 0⟩ ⟨2025, 10, 12, 8, 30, 0⟩ [] [] false
    ("CR2032", "C")).1 (by decide)

set_option maxRecDepth 8192 in
/-- C7 (documents a code bug): the manifest's static per-class listing names
`CR1632-AA.stl` and `CR1616-AA.stl`, yet neither ("CR1632", "AA") nor
("CR1616", "AA") is a pair of either compatibility table — while every table
pair's filename does appear; the listing names 15 files but the manifest's
own computed total (from the tables) is 13. -/
theorem c7_manifest_listing_mismatch :
    "CR1632-AA.stl" ∈ listedStlFiles ∧
    "CR1616-AA.stl" ∈ listedStlFiles ∧
    stlName "CR1632" "AA" = "CR1632-AA.stl" ∧
    ("CR1632", "AA") ∉ pairsOf BUTTON_CELL_COMPAT ++ pairsOf CYLINDER_COMPAT ∧
    ("CR1616", "AA") ∉ pairsOf BUTTON_CELL_COMPAT ++ pairsOf CYLINDER_COMPAT ∧
    (∀ n ∈ listedStlFiles, n.data <:+: manifestStaticListing.data) ∧
    (∀ p ∈ pairsOf BUTTON_CELL_COMPAT ++ pairsOf CYLINDER_COMPAT,
      stlName p.1 p.2 ∈ listedStlFiles) ∧
    listedStlFiles.length = 15 ∧
    manifestTotalFiles = 13 := by
  decide

/-- C8 counterexample: two consecutive runs can start within the same
wall-clock second; the computed release directories then coincide and the
second run's `mkdir(exist_ok=True)` silently reuses the first run's tree —
the runs do not get distinct release directories. -/
theorem c8_same_second_counterexample :
    ∃ r1 r2,
      main' allSuccessEnv ⟨2025, 10, 12, 8, 30, 0⟩ ⟨2025, 10, 12, 8, 30, 0⟩ [] [] false =
        Except.ok r1 ∧
      main' allSuccessEnv ⟨2025, 10, 12, 8, 30, 0⟩ ⟨2025, 10, 12, 8, 30, 0⟩ r1.dirsAfter []
        false = Except.ok r2 ∧
      r1.releaseDir = r2.releaseDir ∧
      r2.dirsAfter = r1.dirsAfter := by
  refine ⟨_, _,
    main'_spec completedOnly_allSuccess ⟨2025, 10, 12, 8, 30, 0⟩ ⟨2025, 10, 12, 8, 30, 0⟩
      [] [] false,
    main'_spec completedOnly_allSuccess ⟨2025, 10, 12, 8, 30, 0⟩ ⟨2025, 10, 12, 8, 30, 0⟩
      _ [] false,
    rfl, ?_⟩
  simp [mkdirParentsExistOk]

/-- C8 (amended): release directories of two runs are distinct iff the runs'
wall-clock timestamps differ at second-level resolution (for field-valid
timestamps the `strftime` name is injective); when a run's release directory
already exists, `mkdir(parents=True, exist_ok=True)` raises no error and
leaves the tree as is, merging the run's output into it. -/
theorem c8_timestamp_directories :
    (∀ t1 t2 : Timestamp, validTimestamp t1 → validTimestamp t2 →
      (releaseName t1 = releaseName t2 ↔ t1 = t2)) ∧
    (∀ (fs : Dirs) (d : String), d ∈ fs → mkdirParentsExistOk fs d = fs) := by
  constructor
  · intro t1 t2 h1 h2
    constructor
    · exact releaseName_inj h1 h2
    · intro he
      rw [he]
  · intro fs d hd
    simp [mkdirParentsExistOk, hd]

/-- Witness for C8 (amended) at two concrete timestamps one second apart. -/
theorem c8_timestamp_directories_witness :
    ((releaseName ⟨2025, 10, 12, 8, 30, 0⟩ = releaseName ⟨2025, 10, 12, 8, 30, 1⟩) ↔
      (⟨2025, 10, 12, 8, 30, 0⟩ : Timestamp) = ⟨2025, 10, 12, 8, 30, 1⟩) ∧
    mkdirParentsExistOk ["releases"] "releases" = ["releases"] :=
  ⟨c8_timestamp_directories.1 ⟨2025, 10, 12, 8, 30, 0⟩ ⟨2025, 10, 12, 8, 30, 1⟩
      (by decide) (by decide),
   c8_timestamp_directories.2 ["releases"] "releases" (by decide)⟩
